import Mathlib

/-!
# file_attributes: Windows security descriptors as SDDL strings

A shallow embedding of `file_attributes_windows.go`.

* A Go `string` is represented by the sequence of runes that `range` yields
  over it (a NUL byte of the string is exactly a rune 0 of that sequence, and
  a valid UTF-8 string is a sequence of Unicode scalar values).
* A `[]uint16` is a list of code units; a `*byte` is an address, 0 for nil.
* The Win32 entry points the file reaches through `syscall.Syscall*` are the
  fields of `Win32`: every call maps the current state of the outside world
  and its arguments to its results and the next state of the world. What the
  calls answer is not constrained, except for two points of the Win32
  contract: a string the OS hands out is NUL-terminated (`WideString`), and a
  call allocates a buffer for its caller only when it reports success
  (`Call.allocates`). A third point, that a successful conversion to text
  hands out a string that is not empty (`Win32.textContract`), is a
  hypothesis of the one theorem that needs it.
* Every function returns, next to its Go results, the world it leaves and the
  list of OS calls it made, in order. `none` stands for an execution that
  does not return (a memory fault or an index panic).
* `recording os` is `os` keeping its own record of the calls it receives;
  statements about the calls an operation makes are read off that record.
-/

namespace FileAttributes

/-! ## Strings and UTF-16 (Go runtime and `unicode/utf16`) -/

/-- A Go string, as the runes that `range` yields over it. -/
abbrev GoString := List Nat

def surr1 : Nat := 0xd800
def surr2 : Nat := 0xdc00
def surr3 : Nat := 0xe000
def surrSelf : Nat := 0x10000
def maxRune : Nat := 0x10FFFF
def replacementChar : Nat := 0xFFFD

/-- Unicode scalar values: the runes a valid UTF-8 string consists of. -/
def validRune (r : Nat) : Bool :=
  r < surr1 || (surr3 ≤ r && r ≤ maxRune)

/-- Go conversion `string(rs)` of a rune slice: a rune that is no scalar value
becomes U+FFFD. -/
def stringOfRunes (rs : List Nat) : GoString :=
  rs.map fun r => if validRune r then r else replacementChar

/-- Go `utf16.EncodeRune` for a rune in the supplementary planes. -/
def encodeRune (r : Nat) : Nat × Nat :=
  (surr1 + (((r - surrSelf) >>> 10) &&& 0x3ff), surr2 + ((r - surrSelf) &&& 0x3ff))

/-- Go `utf16.DecodeRune` on a high and a low surrogate. -/
def decodeRune (r1 r2 : Nat) : Nat :=
  ((((r1 - surr1) <<< 10) ||| (r2 - surr2)) + surrSelf)

/-- Go `utf16.Encode`. -/
def utf16Encode : List Nat → List Nat
  | [] => []
  | v :: s =>
    if v < surr1 || (surr3 ≤ v && v < surrSelf) then v :: utf16Encode s
    else if surrSelf ≤ v && v ≤ maxRune then
      (encodeRune v).1 :: (encodeRune v).2 :: utf16Encode s
    else replacementChar :: utf16Encode s

/-- Go `utf16.Decode`. -/
def utf16Decode : List Nat → List Nat
  | [] => []
  | [r] => if r < surr1 || surr3 ≤ r then [r] else [replacementChar]
  | r :: r2 :: s =>
    if r < surr1 || surr3 ≤ r then r :: utf16Decode (r2 :: s)
    else if surr1 ≤ r && r < surr2 && surr2 ≤ r2 && r2 < surr3 then
      decodeRune r r2 :: utf16Decode s
    else replacementChar :: utf16Decode (r2 :: s)

/-- Go `syscall.UTF16FromString`: `none` is the `EINVAL` error, returned when
the string holds a NUL; otherwise the UTF-16 encoding with a terminating NUL. -/
def UTF16FromString (s : GoString) : Option (List Nat) :=
  if 0 ∈ s then none else some (utf16Encode (s ++ [0]))

/-- The expression `&xs[0]` on a slice: an index panic when the slice is empty,
otherwise the slice seen from its first element. -/
def firstElement (xs : List Nat) : Option (List Nat) :=
  if xs.length = 0 then none else some xs

/-! ## Go maps -/

/-- A Go `map[string]V`, as its key-value pairs. -/
structure GoMap (V : Type) where
  entries : List (String × V)

/-- The result of `make(map[string]V)`. -/
def GoMap.make {V : Type} : GoMap V := { entries := [] }

/-- The assignment `m[k] = v`. -/
def GoMap.assign {V : Type} (m : GoMap V) (k : String) (v : V) : GoMap V :=
  { entries := m.entries.filter (fun kv => kv.1 != k) ++ [(k, v)] }

/-- The read `m[k]`, which yields the zero value of `V` for an absent key. -/
def GoMap.get {V : Type} (zero : V) (m : GoMap V) (k : String) : V :=
  (m.entries.lookup k).getD zero

/-- The keys of a map. -/
def GoMap.keys {V : Type} (m : GoMap V) : List String :=
  m.entries.map Prod.fst

/-! ## Constants -/

def fileSecurityInfo : Nat := 1
def ownerSecurityInformation : Nat := 1
def groupSecurityInformation : Nat := 2
def daclSecurityInformation : Nat := 4
def attributeSecurityInformation : Nat := 32
def desiredSecurityInformation : Nat :=
  ownerSecurityInformation ||| groupSecurityInformation ||| daclSecurityInformation |||
    attributeSecurityInformation
def sddlRevision : Nat := 1
def securityDescriptorTag : String := "securityDescriptor"
def ownerTag : String := "owner"
def groupTag : String := "group"
def daclTag : String := "dacl"

/-! ## The operating system -/

/-- An `LPWSTR` the OS hands out: its address (0 is the nil pointer) and the
code units readable from that address on. By the Win32 contract the units hold
a terminating NUL. -/
structure WideString where
  addr : Nat
  units : List Nat
  terminated : 0 ∈ units

/-- What `GetNamedSecurityInfoW` leaves behind: the return value, the three
out-pointers and the `Errno` that `Syscall9` reports. -/
structure QueryResult where
  returnVal : Nat
  ownerSid : Nat
  groupSid : Nat
  securityDescriptor : Nat
  callErr : Nat

/-- What a conversion to text leaves behind. -/
structure TextResult where
  returnVal : Nat
  text : WideString
  callErr : Nat

/-- What `ConvertStringSecurityDescriptorToSecurityDescriptorW` leaves behind. -/
structure ParseResult where
  returnVal : Nat
  securityDescriptor : Nat
  callErr : Nat

/-- What `SetFileSecurityW` leaves behind. -/
structure ApplyResult where
  returnVal : Nat
  callErr : Nat

/-- The entry points of advapi32.dll and Kernel32.dll the module loads, over a
state of the outside world `W`. -/
structure Win32 (W : Type) where
  getNamedSecurityInfoW : W → List Nat → Nat → Nat → QueryResult × W
  convertSecurityDescriptorToStringSecurityDescriptorW : W → Nat → Nat → Nat → TextResult × W
  convertSidToStringSidW : W → Nat → TextResult × W
  convertStringSecurityDescriptorToSecurityDescriptorW : W → List Nat → Nat → ParseResult × W
  setFileSecurityW : W → List Nat → Nat → Nat → ApplyResult × W
  localFree : W → Nat → Nat × W

/-- One call into the OS, with its arguments and what it returned. -/
inductive Call where
  | getNamedSecurityInfoW (objectName : List Nat) (objectType securityInfo : Nat)
      (returnVal ownerSid groupSid securityDescriptor : Nat)
  | convertSecurityDescriptorToStringSecurityDescriptorW
      (securityDescriptor revision securityInfo : Nat) (returnVal : Nat) (text : WideString)
  | convertSidToStringSidW (sid : Nat) (returnVal : Nat) (text : WideString)
  | convertStringSecurityDescriptorToSecurityDescriptorW (text : List Nat) (revision : Nat)
      (returnVal securityDescriptor : Nat)
  | setFileSecurityW (fileName : List Nat) (securityInfo securityDescriptor : Nat)
      (returnVal : Nat)
  | localFree (mem : Nat)

/-! ## Errors -/

/-- The errors the module returns, one constructor for each place that builds
one. `queryFailed` and `sidToStringFailed` carry the bare `syscall.Errno` that
`securityInfo` and `stringFromSid` return; the other constructors stand for
the `fmt.Errorf` messages. -/
inductive Err where
  /-- Message "WidowsFileAttributes only works on Windows". -/
  | notWindows
  /-- Message "failed to convert %s to Windows equivalent". -/
  | convertFailed (s : GoString)
  /-- Message "file name is not set". -/
  | fileNameNotSet
  /-- The `callErr` of `GetNamedSecurityInfoW`. -/
  | queryFailed (callErr : Nat)
  /-- Message "failed to get a security descriptor from a call to GetNamedSecurityInfoW". -/
  | noSecurityDescriptor
  /-- Message "call to ConvertSecurityDescriptorToStringSecurityDescriptor failed with error: %v". -/
  | sdToStringFailed (callErr : Nat)
  /-- Message "failed to get owner sid from a call to GetNamedSecurityInfoW". -/
  | noOwnerSid
  /-- Message "failed to get group sid from a call to GetNamedSecurityInfoW". -/
  | noGroupSid
  /-- The `callErr` of `ConvertSidToStringSidW`. -/
  | sidToStringFailed (callErr : Nat)
  /-- Message "call to ConvertStringSecurityDescriptorToSecurityDescriptor failed with error: %v". -/
  | parseFailed (callErr : Nat)
  /-- Message "call to SetFileSecurity failed with error: %v". -/
  | setFileSecurityFailed (callErr : Nat)
  deriving DecidableEq

/-! ## The module -/

structure WidowsFileAttributes where
  windowsFileName : List Nat

/-- `NewWidowsFileAttributes`; `goos` is `runtime.GOOS`. -/
def NewWidowsFileAttributes (goos : String) (filePath : GoString) :
    Except Err WidowsFileAttributes :=
  if goos ≠ "windows" then .error .notWindows
  else
    match UTF16FromString filePath with
    | none => .error (.convertFailed filePath)
    | some windowsFileName => .ok { windowsFileName := windowsFileName }

def securityInfo {W : Type} (os : Win32 W) (attributes : WidowsFileAttributes) (w : W) :
    Option (Except Err (GoMap Nat) × W × List Call) :=
  if attributes.windowsFileName.length = 0 then some (.error .fileNameNotSet, w, [])
  else
    match firstElement attributes.windowsFileName with
    | none => none
    | some objectName =>
      let r := os.getNamedSecurityInfoW w objectName fileSecurityInfo desiredSecurityInformation
      let call := Call.getNamedSecurityInfoW objectName fileSecurityInfo
        desiredSecurityInformation r.1.returnVal r.1.ownerSid r.1.groupSid r.1.securityDescriptor
      if r.1.returnVal ≠ 0 then some (.error (.queryFailed r.1.callErr), r.2, [call])
      else
        some (.ok (((GoMap.make.assign securityDescriptorTag r.1.securityDescriptor).assign
          ownerTag r.1.ownerSid).assign groupTag r.1.groupSid), r.2, [call])

def freeWindowsSecurityDescriptor {W : Type} (os : Win32 W) (securityDescriptor : Nat) (w : W) :
    Nat × W × List Call :=
  let r := os.localFree w securityDescriptor
  (r.1 % 2 ^ 32, r.2, [Call.localFree securityDescriptor])

def freeWindowsUnicodeText {W : Type} (os : Win32 W) (allocatedMemory : WideString) (w : W) :
    Nat × W × List Call :=
  let r := os.localFree w allocatedMemory.addr
  (r.1 % 2 ^ 32, r.2, [Call.localFree allocatedMemory.addr])

/-- The loop of `unicodeStringToString`: `memory` is what the cursor still has
to read, `unicodeStringSlice` the units appended so far. Running off the
readable memory without meeting a NUL is a fault. -/
def unicodeStringToString.loop : List Nat → List Nat → Option GoString
  | [], _ => none
  | unicodeCharacter :: memory, unicodeStringSlice =>
    if unicodeCharacter = 0 then some (stringOfRunes (utf16Decode unicodeStringSlice))
    else unicodeStringToString.loop memory (unicodeStringSlice ++ [unicodeCharacter])

/-- `unicodeStringToString` on the pointer `addr` with the code units `memory`
readable from it. -/
def unicodeStringToString (addr : Nat) (memory : List Nat) : Option GoString :=
  if addr ≠ 0 then unicodeStringToString.loop memory [] else some []

def securityDescriptorString {W : Type} (os : Win32 W) (securityDescriptor : Nat) (w : W) :
    Option (Except Err GoString × W × List Call) :=
  let r := os.convertSecurityDescriptorToStringSecurityDescriptorW w securityDescriptor
    sddlRevision desiredSecurityInformation
  let call := Call.convertSecurityDescriptorToStringSecurityDescriptorW securityDescriptor
    sddlRevision desiredSecurityInformation r.1.returnVal r.1.text
  if r.1.returnVal = 0 then some (.error (.sdToStringFailed r.1.callErr), r.2, [call])
  else
    match unicodeStringToString r.1.text.addr r.1.text.units with
    | none => none
    | some s =>
      -- the deferred freeWindowsUnicodeText runs once the result is computed
      let f := freeWindowsUnicodeText os r.1.text r.2
      some (.ok s, f.2.1, call :: f.2.2)

def stringFromSid {W : Type} (os : Win32 W) (sid : Nat) (w : W) :
    Option (Except Err GoString × W × List Call) :=
  let r := os.convertSidToStringSidW w sid
  let call := Call.convertSidToStringSidW sid r.1.returnVal r.1.text
  if r.1.returnVal = 0 then some (.error (.sidToStringFailed r.1.callErr), r.2, [call])
  else
    match unicodeStringToString r.1.text.addr r.1.text.units with
    | none => none
    | some s =>
      let f := freeWindowsUnicodeText os r.1.text r.2
      some (.ok s, f.2.1, call :: f.2.2)

/-- The part of `GetSecurityDescriptor` that runs after the `defer` statement. -/
def GetSecurityDescriptor.deferred {W : Type} (os : Win32 W) (securityInfoMap : GoMap Nat)
    (securityDescriptor : Nat) (w : W) :
    Option (Except Err (GoMap GoString) × W × List Call) :=
  match securityDescriptorString os securityDescriptor w with
  | none => none
  | some (.error err, w1, c1) => some (.error err, w1, c1)
  | some (.ok securityDescriptorString, w1, c1) =>
    let ownerSid := securityInfoMap.get 0 ownerTag
    if ownerSid = 0 then some (.error .noOwnerSid, w1, c1)
    else
      match stringFromSid os ownerSid w1 with
      | none => none
      | some (.error err, w2, c2) => some (.error err, w2, c1 ++ c2)
      | some (.ok ownerSidString, w2, c2) =>
        let groupSid := securityInfoMap.get 0 groupTag
        if groupSid = 0 then some (.error .noGroupSid, w2, c1 ++ c2)
        else
          match stringFromSid os groupSid w2 with
          | none => none
          | some (.error err, w3, c3) => some (.error err, w3, c1 ++ c2 ++ c3)
          | some (.ok groupSidString, w3, c3) =>
            some (.ok (((GoMap.make.assign daclTag securityDescriptorString).assign
              ownerTag ownerSidString).assign groupTag groupSidString), w3, c1 ++ c2 ++ c3)

def GetSecurityDescriptor {W : Type} (os : Win32 W) (attributes : WidowsFileAttributes) (w : W) :
    Option (Except Err (GoMap GoString) × W × List Call) :=
  match securityInfo os attributes w with
  | none => none
  | some (.error err, w1, c1) => some (.error err, w1, c1)
  | some (.ok securityInfoMap, w1, c1) =>
    let securityDescriptor := securityInfoMap.get 0 securityDescriptorTag
    if securityDescriptor = 0 then some (.error .noSecurityDescriptor, w1, c1)
    else
      match GetSecurityDescriptor.deferred os securityInfoMap securityDescriptor w1 with
      | none => none
      | some (result, w2, c2) =>
        let f := freeWindowsSecurityDescriptor os securityDescriptor w2
        some (result, f.2.1, c1 ++ c2 ++ f.2.2)

/-- The part of `SetSecurityDescriptor` that runs after the `defer` statement;
the Go `error` result is `none` for nil. -/
def SetSecurityDescriptor.deferred {W : Type} (os : Win32 W)
    (attributes : WidowsFileAttributes) (securityDescriptor : Nat) (w : W) :
    Option (Option Err × W × List Call) :=
  if attributes.windowsFileName.length = 0 then some (some .fileNameNotSet, w, [])
  else
    match firstElement attributes.windowsFileName with
    | none => none
    | some fileName =>
      let r := os.setFileSecurityW w fileName desiredSecurityInformation securityDescriptor
      let call := Call.setFileSecurityW fileName desiredSecurityInformation securityDescriptor
        r.1.returnVal
      if r.1.returnVal = 0 then some (some (.setFileSecurityFailed r.1.callErr), r.2, [call])
      else some (none, r.2, [call])

def SetSecurityDescriptor {W : Type} (os : Win32 W) (attributes : WidowsFileAttributes)
    (securityDescriptorString : GoString) (w : W) : Option (Option Err × W × List Call) :=
  match UTF16FromString securityDescriptorString with
  | none => some (some (.convertFailed securityDescriptorString), w, [])
  | some windowsSecurityDescriptorText =>
    match firstElement windowsSecurityDescriptorText with
    | none => none
    | some text =>
      let r := os.convertStringSecurityDescriptorToSecurityDescriptorW w text sddlRevision
      let call := Call.convertStringSecurityDescriptorToSecurityDescriptorW text sddlRevision
        r.1.returnVal r.1.securityDescriptor
      if r.1.returnVal = 0 then some (some (.parseFailed r.1.callErr), r.2, [call])
      else
        match SetSecurityDescriptor.deferred os attributes r.1.securityDescriptor r.2 with
        | none => none
        | some (result, w2, c2) =>
          let f := freeWindowsSecurityDescriptor os r.1.securityDescriptor w2
          some (result, f.2.1, call :: c2 ++ f.2.2)

/-! ## An OS that keeps a record of what it is asked -/

/-- The OS `os` with a record of its own: the world is that of `os` together
with the list of the calls the OS has received so far, and every entry point
answers as `os` does and adds the call, with its arguments and its answer,
to that list. The record is written by the OS, not by the module. -/
def recording {W : Type} (os : Win32 W) : Win32 (W × List Call) where
  getNamedSecurityInfoW st objectName objectType securityInfo :=
    ((os.getNamedSecurityInfoW st.1 objectName objectType securityInfo).1,
      (os.getNamedSecurityInfoW st.1 objectName objectType securityInfo).2,
      st.2 ++ [.getNamedSecurityInfoW objectName objectType securityInfo
        (os.getNamedSecurityInfoW st.1 objectName objectType securityInfo).1.returnVal
        (os.getNamedSecurityInfoW st.1 objectName objectType securityInfo).1.ownerSid
        (os.getNamedSecurityInfoW st.1 objectName objectType securityInfo).1.groupSid
        (os.getNamedSecurityInfoW st.1 objectName objectType securityInfo).1.securityDescriptor])
  convertSecurityDescriptorToStringSecurityDescriptorW st sd revision securityInfo :=
    ((os.convertSecurityDescriptorToStringSecurityDescriptorW st.1 sd revision securityInfo).1,
      (os.convertSecurityDescriptorToStringSecurityDescriptorW st.1 sd revision securityInfo).2,
      st.2 ++ [.convertSecurityDescriptorToStringSecurityDescriptorW sd revision securityInfo
        (os.convertSecurityDescriptorToStringSecurityDescriptorW st.1 sd revision
          securityInfo).1.returnVal
        (os.convertSecurityDescriptorToStringSecurityDescriptorW st.1 sd revision
          securityInfo).1.text])
  convertSidToStringSidW st sid :=
    ((os.convertSidToStringSidW st.1 sid).1, (os.convertSidToStringSidW st.1 sid).2,
      st.2 ++ [.convertSidToStringSidW sid (os.convertSidToStringSidW st.1 sid).1.returnVal
        (os.convertSidToStringSidW st.1 sid).1.text])
  convertStringSecurityDescriptorToSecurityDescriptorW st text revision :=
    ((os.convertStringSecurityDescriptorToSecurityDescriptorW st.1 text revision).1,
      (os.convertStringSecurityDescriptorToSecurityDescriptorW st.1 text revision).2,
      st.2 ++ [.convertStringSecurityDescriptorToSecurityDescriptorW text revision
        (os.convertStringSecurityDescriptorToSecurityDescriptorW st.1 text revision).1.returnVal
        (os.convertStringSecurityDescriptorToSecurityDescriptorW st.1 text
          revision).1.securityDescriptor])
  setFileSecurityW st fileName securityInfo sd :=
    ((os.setFileSecurityW st.1 fileName securityInfo sd).1,
      (os.setFileSecurityW st.1 fileName securityInfo sd).2,
      st.2 ++ [.setFileSecurityW fileName securityInfo sd
        (os.setFileSecurityW st.1 fileName securityInfo sd).1.returnVal])
  localFree st mem :=
    ((os.localFree st.1 mem).1, (os.localFree st.1 mem).2, st.2 ++ [.localFree mem])

/-- The call `c` is a conversion to text that `os` answers, in some world, with
the return value and the text that `c` holds. -/
def Win32.answered {W : Type} (os : Win32 W) : Call → Prop
  | .convertSecurityDescriptorToStringSecurityDescriptorW sd revision securityInfo
      returnVal text =>
    ∃ w, (os.convertSecurityDescriptorToStringSecurityDescriptorW w sd revision
        securityInfo).1.returnVal = returnVal ∧
      (os.convertSecurityDescriptorToStringSecurityDescriptorW w sd revision
        securityInfo).1.text = text
  | .convertSidToStringSidW sid returnVal text =>
    ∃ w, (os.convertSidToStringSidW w sid).1.returnVal = returnVal ∧
      (os.convertSidToStringSidW w sid).1.text = text
  | _ => True

/-- The Win32 contract of the two conversions to text: when the call reports
success, its out-pointer is set and the string it points to is not empty (a
SID string starts with "S-", the SDDL text of a descriptor with "O:", "G:",
"D:" or "S:"). -/
def Win32.textContract {W : Type} (os : Win32 W) : Prop :=
  (∀ w sd revision securityInfo,
    (os.convertSecurityDescriptorToStringSecurityDescriptorW w sd revision
      securityInfo).1.returnVal ≠ 0 →
    (os.convertSecurityDescriptorToStringSecurityDescriptorW w sd revision
      securityInfo).1.text.addr ≠ 0 ∧
    (os.convertSecurityDescriptorToStringSecurityDescriptorW w sd revision
      securityInfo).1.text.units.head? ≠ some 0) ∧
  (∀ w sid,
    (os.convertSidToStringSidW w sid).1.returnVal ≠ 0 →
    (os.convertSidToStringSidW w sid).1.text.addr ≠ 0 ∧
    (os.convertSidToStringSidW w sid).1.text.units.head? ≠ some 0)

/-! ## Reading the list of OS calls -/

/-- The text `unicodeStringToString` makes of an OS string: nothing for the nil
pointer, otherwise the decoding of the code units before the first NUL. -/
def decoded (t : WideString) : GoString :=
  if t.addr ≠ 0 then stringOfRunes (utf16Decode (t.units.takeWhile (fun c => c != 0))) else []

/-- The buffer a call hands to its caller, who has to release it with
`LocalFree`; 0 when it hands over none. By the Win32 contract a call that
reports failure allocates nothing: `GetNamedSecurityInfoW` succeeds with a
return value of 0, the three conversions with one that is not 0. The owner
and group pointers of `GetNamedSecurityInfoW` point into its descriptor and
are no buffers of their own. -/
def Call.allocates : Call → Nat
  | .getNamedSecurityInfoW _ _ _ returnVal _ _ securityDescriptor =>
    if returnVal = 0 then securityDescriptor else 0
  | .convertSecurityDescriptorToStringSecurityDescriptorW _ _ _ returnVal text =>
    if returnVal = 0 then 0 else text.addr
  | .convertSidToStringSidW _ returnVal text => if returnVal = 0 then 0 else text.addr
  | .convertStringSecurityDescriptorToSecurityDescriptorW _ _ returnVal securityDescriptor =>
    if returnVal = 0 then 0 else securityDescriptor
  | .setFileSecurityW _ _ _ _ => 0
  | .localFree _ => 0

/-- The buffers live after the calls `cs`, starting from the live buffers
`live`: a call that allocates adds its buffer, `LocalFree` of a live buffer
removes it, `LocalFree` of nil does nothing. `none` when `LocalFree` gets a
pointer that is not live (a buffer freed twice, or never allocated). -/
def ledger : List Call → List Nat → Option (List Nat)
  | [], live => some live
  | .localFree mem :: cs, live =>
    if mem = 0 then ledger cs live
    else if mem ∈ live then ledger cs (live.erase mem) else none
  | c :: cs, live =>
    if c.allocates = 0 then ledger cs live else ledger cs (c.allocates :: live)

/-- How often `LocalFree` is called on `p` in `cs`. -/
def freeCount (p : Nat) : List Call → Nat
  | [] => 0
  | .localFree mem :: cs => (if mem = p then 1 else 0) + freeCount p cs
  | _ :: cs => freeCount p cs

/-- How often the calls `cs` allocate the buffer `p`. -/
def allocCount (p : Nat) : List Call → Nat
  | [] => 0
  | c :: cs => (if c.allocates = p then 1 else 0) + allocCount p cs

/-- The security-information mask a call is given, for the calls that take one. -/
def Call.securityInfoArg : Call → Option Nat
  | .getNamedSecurityInfoW _ _ securityInfo _ _ _ _ => some securityInfo
  | .convertSecurityDescriptorToStringSecurityDescriptorW _ _ securityInfo _ _ =>
    some securityInfo
  | .setFileSecurityW _ securityInfo _ _ => some securityInfo
  | _ => none

/-- A call whose outcome makes `GetSecurityDescriptor` give up: a query that
returns non-zero or leaves the descriptor, owner or group pointer nil, or a
conversion to text that fails. -/
def Call.stopsGet : Call → Bool
  | .getNamedSecurityInfoW _ _ _ returnVal ownerSid groupSid securityDescriptor =>
    returnVal != 0 || securityDescriptor == 0 || ownerSid == 0 || groupSid == 0
  | .convertSecurityDescriptorToStringSecurityDescriptorW _ _ _ returnVal _ => returnVal == 0
  | .convertSidToStringSidW _ returnVal _ => returnVal == 0
  | _ => false

/-- The call is `SetFileSecurityW`. -/
def Call.isApply : Call → Bool
  | .setFileSecurityW _ _ _ _ => true
  | _ => false

/-- The call is `SetFileSecurityW` and reports success. -/
def Call.isApplySuccess : Call → Bool
  | .setFileSecurityW _ _ _ returnVal => returnVal != 0
  | _ => false

/-- The call is `ConvertStringSecurityDescriptorToSecurityDescriptorW` and
reports failure. -/
def Call.isParseFailure : Call → Bool
  | .convertStringSecurityDescriptorToSecurityDescriptorW _ _ returnVal _ => returnVal == 0
  | _ => false

/-- The call is `ConvertStringSecurityDescriptorToSecurityDescriptorW` and
reports success. -/
def Call.isParseSuccess : Call → Bool
  | .convertStringSecurityDescriptorToSecurityDescriptorW _ _ returnVal _ => returnVal != 0
  | _ => false

/-! ## The error taxonomy of the specification -/

/-- The six classes of the closed error taxonomy the specification names. -/
inductive ErrorClass where
  | pathEncodingFailure
  | queryFailure
  | descriptorStringConversionFailure
  | identifierStringConversionFailure
  | descriptorParseFailure
  | applyFailure
  deriving DecidableEq

/-- The class of the specification's taxonomy an error of the module falls in,
`none` when it falls in none of the six. A failed conversion of a Go string to
UTF-16 counts as a path-encoding failure, and a nil descriptor, owner or group
after a successful query as a query failure. -/
def specErrorClass : Err → Option ErrorClass
  | .notWindows => none
  | .convertFailed _ => some .pathEncodingFailure
  | .fileNameNotSet => none
  | .queryFailed _ => some .queryFailure
  | .noSecurityDescriptor => some .queryFailure
  | .sdToStringFailed _ => some .descriptorStringConversionFailure
  | .noOwnerSid => some .queryFailure
  | .noGroupSid => some .queryFailure
  | .sidToStringFailed _ => some .identifierStringConversionFailure
  | .parseFailed _ => some .descriptorParseFailure
  | .setFileSecurityFailed _ => some .applyFailure

/-! ## Two concrete operating systems

Both answer every call the same way whatever the state of the world, which
is a single point. -/

/-- The code units of "S-1-5-18" with the terminating NUL. -/
def sampleSidText : WideString :=
  { addr := 0x3000, units := [83, 45, 49, 45, 53, 45, 49, 56, 0], terminated := by decide }

/-- The code units of "O:SYG:SYD:" with the terminating NUL. -/
def sampleSddlText : WideString :=
  { addr := 0x2000, units := [79, 58, 83, 89, 71, 58, 83, 89, 68, 58, 0],
    terminated := by decide }

/-- An OS on which every call succeeds and every text is a proper string. -/
def sampleOS : Win32 Unit where
  getNamedSecurityInfoW _ _ _ _ :=
    ({ returnVal := 0, ownerSid := 0x1010, groupSid := 0x1020, securityDescriptor := 0x1000,
       callErr := 0 }, ())
  convertSecurityDescriptorToStringSecurityDescriptorW _ _ _ _ :=
    ({ returnVal := 1, text := sampleSddlText, callErr := 0 }, ())
  convertSidToStringSidW _ _ := ({ returnVal := 1, text := sampleSidText, callErr := 0 }, ())
  convertStringSecurityDescriptorToSecurityDescriptorW _ _ _ :=
    ({ returnVal := 1, securityDescriptor := 0x4000, callErr := 0 }, ())
  setFileSecurityW _ _ _ _ := ({ returnVal := 1, callErr := 0 }, ())
  localFree _ _ := (0, ())

/-- An OS that rejects every SDDL text and succeeds on everything else. -/
def rejectingOS : Win32 Unit where
  getNamedSecurityInfoW _ _ _ _ :=
    ({ returnVal := 0, ownerSid := 0x1010, groupSid := 0x1020, securityDescriptor := 0x1000,
       callErr := 0 }, ())
  convertSecurityDescriptorToStringSecurityDescriptorW _ _ _ _ :=
    ({ returnVal := 1, text := sampleSddlText, callErr := 0 }, ())
  convertSidToStringSidW _ _ := ({ returnVal := 1, text := sampleSidText, callErr := 0 }, ())
  convertStringSecurityDescriptorToSecurityDescriptorW _ _ _ :=
    ({ returnVal := 0, securityDescriptor := 0, callErr := 1336 }, ())
  setFileSecurityW _ _ _ _ := ({ returnVal := 1, callErr := 0 }, ())
  localFree _ _ := (0, ())

/-- The file name ".\aFile.txt" of the tests, as runes. -/
def fileName : GoString := [46, 92, 97, 70, 105, 108, 101, 46, 116, 120, 116]

/-! ## The shapes an execution can take -/

/-- The possible executions of `GetSecurityDescriptor` on a value with the file
name `name`: the Go result and the OS calls made, in order. -/
inductive GetRun (name : List Nat) : Except Err (GoMap GoString) → List Call → Prop where
  | noName : name = [] → GetRun name (.error .fileNameNotSet) []
  | queryFailed (returnVal ownerSid groupSid sd callErr : Nat) :
      name ≠ [] → returnVal ≠ 0 →
      GetRun name (.error (.queryFailed callErr))
        [.getNamedSecurityInfoW name fileSecurityInfo desiredSecurityInformation returnVal
          ownerSid groupSid sd]
  | noDescriptor (ownerSid groupSid : Nat) :
      name ≠ [] →
      GetRun name (.error .noSecurityDescriptor)
        [.getNamedSecurityInfoW name fileSecurityInfo desiredSecurityInformation 0
          ownerSid groupSid 0]
  | sdToStringFailed (ownerSid groupSid sd callErr : Nat) (t : WideString) :
      name ≠ [] → sd ≠ 0 →
      GetRun name (.error (.sdToStringFailed callErr))
        [.getNamedSecurityInfoW name fileSecurityInfo desiredSecurityInformation 0
          ownerSid groupSid sd,
         .convertSecurityDescriptorToStringSecurityDescriptorW sd sddlRevision
          desiredSecurityInformation 0 t,
         .localFree sd]
  | noOwner (groupSid sd r1 : Nat) (t1 : WideString) :
      name ≠ [] → sd ≠ 0 → r1 ≠ 0 →
      GetRun name (.error .noOwnerSid)
        [.getNamedSecurityInfoW name fileSecurityInfo desiredSecurityInformation 0
          0 groupSid sd,
         .convertSecurityDescriptorToStringSecurityDescriptorW sd sddlRevision
          desiredSecurityInformation r1 t1,
         .localFree t1.addr,
         .localFree sd]
  | ownerFailed (ownerSid groupSid sd r1 callErr : Nat) (t1 t2 : WideString) :
      name ≠ [] → sd ≠ 0 → r1 ≠ 0 → ownerSid ≠ 0 →
      GetRun name (.error (.sidToStringFailed callErr))
        [.getNamedSecurityInfoW name fileSecurityInfo desiredSecurityInformation 0
          ownerSid groupSid sd,
         .convertSecurityDescriptorToStringSecurityDescriptorW sd sddlRevision
          desiredSecurityInformation r1 t1,
         .localFree t1.addr,
         .convertSidToStringSidW ownerSid 0 t2,
         .localFree sd]
  | noGroup (ownerSid sd r1 r2 : Nat) (t1 t2 : WideString) :
      name ≠ [] → sd ≠ 0 → r1 ≠ 0 → ownerSid ≠ 0 → r2 ≠ 0 →
      GetRun name (.error .noGroupSid)
        [.getNamedSecurityInfoW name fileSecurityInfo desiredSecurityInformation 0
          ownerSid 0 sd,
         .convertSecurityDescriptorToStringSecurityDescriptorW sd sddlRevision
          desiredSecurityInformation r1 t1,
         .localFree t1.addr,
         .convertSidToStringSidW ownerSid r2 t2,
         .localFree t2.addr,
         .localFree sd]
  | groupFailed (ownerSid groupSid sd r1 r2 callErr : Nat) (t1 t2 t3 : WideString) :
      name ≠ [] → sd ≠ 0 → r1 ≠ 0 → ownerSid ≠ 0 → r2 ≠ 0 → groupSid ≠ 0 →
      GetRun name (.error (.sidToStringFailed callErr))
        [.getNamedSecurityInfoW name fileSecurityInfo desiredSecurityInformation 0
          ownerSid groupSid sd,
         .convertSecurityDescriptorToStringSecurityDescriptorW sd sddlRevision
          desiredSecurityInformation r1 t1,
         .localFree t1.addr,
         .convertSidToStringSidW ownerSid r2 t2,
         .localFree t2.addr,
         .convertSidToStringSidW groupSid 0 t3,
         .localFree sd]
  | done (ownerSid groupSid sd r1 r2 r3 : Nat) (t1 t2 t3 : WideString) :
      name ≠ [] → sd ≠ 0 → r1 ≠ 0 → ownerSid ≠ 0 → r2 ≠ 0 → groupSid ≠ 0 → r3 ≠ 0 →
      GetRun name
        (.ok { entries := [(daclTag, decoded t1), (ownerTag, decoded t2),
                (groupTag, decoded t3)] })
        [.getNamedSecurityInfoW name fileSecurityInfo desiredSecurityInformation 0
          ownerSid groupSid sd,
         .convertSecurityDescriptorToStringSecurityDescriptorW sd sddlRevision
          desiredSecurityInformation r1 t1,
         .localFree t1.addr,
         .convertSidToStringSidW ownerSid r2 t2,
         .localFree t2.addr,
         .convertSidToStringSidW groupSid r3 t3,
         .localFree t3.addr,
         .localFree sd]

/-- The possible executions of `SetSecurityDescriptor` on a value with the file
name `name` and the string `s`: the Go error (`none` is nil) and the OS calls
made, in order. -/
inductive SetRun (name : List Nat) (s : GoString) : Option Err → List Call → Prop where
  | nul : 0 ∈ s → SetRun name s (some (.convertFailed s)) []
  | parseFailed (sd callErr : Nat) :
      0 ∉ s →
      SetRun name s (some (.parseFailed callErr))
        [.convertStringSecurityDescriptorToSecurityDescriptorW (utf16Encode (s ++ [0]))
          sddlRevision 0 sd]
  | noName (r1 sd : Nat) :
      0 ∉ s → r1 ≠ 0 → name = [] →
      SetRun name s (some .fileNameNotSet)
        [.convertStringSecurityDescriptorToSecurityDescriptorW (utf16Encode (s ++ [0]))
          sddlRevision r1 sd,
         .localFree sd]
  | applyFailed (r1 sd callErr : Nat) :
      0 ∉ s → r1 ≠ 0 → name ≠ [] →
      SetRun name s (some (.setFileSecurityFailed callErr))
        [.convertStringSecurityDescriptorToSecurityDescriptorW (utf16Encode (s ++ [0]))
          sddlRevision r1 sd,
         .setFileSecurityW name desiredSecurityInformation sd 0,
         .localFree sd]
  | done (r1 sd r2 : Nat) :
      0 ∉ s → r1 ≠ 0 → name ≠ [] → r2 ≠ 0 →
      SetRun name s none
        [.convertStringSecurityDescriptorToSecurityDescriptorW (utf16Encode (s ++ [0]))
          sddlRevision r1 sd,
         .setFileSecurityW name desiredSecurityInformation sd r2,
         .localFree sd]

/-- The value `NewWidowsFileAttributes` builds on Windows for `fileName`. -/
def sampleAttributes : WidowsFileAttributes :=
  { windowsFileName := [46, 92, 97, 70, 105, 108, 101, 46, 116, 120, 116, 0] }

/-- The zero value of `WidowsFileAttributes`, as `new(WidowsFileAttributes)`
or a composite literal without fields gives it. -/
def zeroAttributes : WidowsFileAttributes :=
  { windowsFileName := [] }

/-- The map `GetSecurityDescriptor` returns for `sampleAttributes` on
`sampleOS`. -/
def sampleMap : GoMap GoString :=
  { entries := [("dacl", [79, 58, 83, 89, 71, 58, 83, 89, 68, 58]),
      ("owner", [83, 45, 49, 45, 53, 45, 49, 56]),
      ("group", [83, 45, 49, 45, 53, 45, 49, 56])] }

/-- The OS calls `GetSecurityDescriptor` makes for `sampleAttributes` on
`sampleOS`. -/
def sampleGetCalls : List Call :=
  [.getNamedSecurityInfoW [46, 92, 97, 70, 105, 108, 101, 46, 116, 120, 116, 0] 1 39 0
      0x1010 0x1020 0x1000,
   .convertSecurityDescriptorToStringSecurityDescriptorW 0x1000 1 39 1 sampleSddlText,
   .localFree 0x2000,
   .convertSidToStringSidW 0x1010 1 sampleSidText,
   .localFree 0x3000,
   .convertSidToStringSidW 0x1020 1 sampleSidText,
   .localFree 0x3000,
   .localFree 0x1000]

/-- The OS calls `SetSecurityDescriptor` makes for `sampleAttributes` and the
string "D:" on `sampleOS`. -/
def sampleSetCalls : List Call :=
  [.convertStringSecurityDescriptorToSecurityDescriptorW [68, 58, 0] 1 1 0x4000,
   .setFileSecurityW [46, 92, 97, 70, 105, 108, 101, 46, 116, 120, 116, 0] 39 0x4000 1,
   .localFree 0x4000]

/-! ## UTF-16: decoding undoes encoding -/

theorem encodeRune_fst (v : Nat) :
    (encodeRune v).1 = surr1 + (v - surrSelf) / 1024 % 1024 := by
  have h := Nat.and_pow_two_sub_one_eq_mod ((v - surrSelf) >>> 10) 10
  have h2 := Nat.shiftRight_eq_div_pow (v - surrSelf) 10
  simp only [encodeRune]
  norm_num at h h2
  rw [h, h2]

theorem encodeRune_snd (v : Nat) :
    (encodeRune v).2 = surr2 + (v - surrSelf) % 1024 := by
  have h := Nat.and_pow_two_sub_one_eq_mod (v - surrSelf) 10
  simp only [encodeRune]
  norm_num at h
  rw [h]

theorem decodeRune_eq (a b : Nat) (hb : b < 1024) :
    decodeRune (surr1 + a) (surr2 + b) = a * 1024 + b + surrSelf := by
  have h := Nat.mul_add_lt_is_or (i := 10) (b := b) (by simpa using hb) a
  have h2 := Nat.shiftLeft_eq a 10
  simp only [decodeRune, Nat.add_sub_cancel_left]
  norm_num at h h2
  rw [h2, Nat.mul_comm a 1024, ← h]

theorem decodeRune_encodeRune (v : Nat) (h1 : surrSelf ≤ v) (h2 : v ≤ maxRune) :
    decodeRune (encodeRune v).1 (encodeRune v).2 = v := by
  rw [encodeRune_fst, encodeRune_snd, decodeRune_eq _ _ (Nat.mod_lt _ (by norm_num))]
  simp only [surrSelf, maxRune] at *
  omega

theorem utf16Decode_normal (r : Nat) (s : List Nat) (h : r < surr1 ∨ surr3 ≤ r) :
    utf16Decode (r :: s) = r :: utf16Decode s := by
  cases s with
  | nil => simp [utf16Decode, h]
  | cons r2 s => simp [utf16Decode, h]

theorem utf16Decode_pair (r r2 : Nat) (s : List Nat) (h1 : surr1 ≤ r) (h2 : r < surr2)
    (h3 : surr2 ≤ r2) (h4 : r2 < surr3) :
    utf16Decode (r :: r2 :: s) = decodeRune r r2 :: utf16Decode s := by
  have hn : ¬ (r < surr1 ∨ surr3 ≤ r) := by
    simp only [surr1, surr2, surr3] at *
    omega
  simp [utf16Decode, hn, h1, h2, h3, h4]

theorem utf16Decode_utf16Encode (s : List Nat) (hs : ∀ r ∈ s, validRune r = true) :
    utf16Decode (utf16Encode s) = s := by
  induction s with
  | nil => simp [utf16Encode, utf16Decode]
  | cons v s ih =>
    have hv : validRune v = true := hs v (List.mem_cons_self _ _)
    have ih2 := ih (fun r hr => hs r (List.mem_cons_of_mem _ hr))
    simp only [validRune, Bool.or_eq_true, Bool.and_eq_true, decide_eq_true_eq] at hv
    by_cases hb : v < surr1 ∨ (surr3 ≤ v ∧ v < surrSelf)
    · have hn : v < surr1 ∨ surr3 ≤ v := by
        rcases hb with hb | hb
        · exact Or.inl hb
        · exact Or.inr hb.1
      simp only [utf16Encode, Bool.or_eq_true, Bool.and_eq_true, decide_eq_true_eq, hb,
        if_true]
      rw [utf16Decode_normal _ _ hn, ih2]
    · have hsup : surrSelf ≤ v ∧ v ≤ maxRune := by
        simp only [surr1, surr3, surrSelf, maxRune] at *
        omega
      simp only [utf16Encode, Bool.or_eq_true, Bool.and_eq_true, decide_eq_true_eq, hb,
        if_false, hsup, and_self, if_true]
      rw [utf16Decode_pair, decodeRune_encodeRune v hsup.1 hsup.2, ih2]
      · rw [encodeRune_fst]; exact Nat.le_add_right _ _
      · rw [encodeRune_fst]
        have := Nat.mod_lt ((v - surrSelf) / 1024) (show 0 < 1024 by norm_num)
        simp only [surr1, surr2] at *
        omega
      · rw [encodeRune_snd]; exact Nat.le_add_right _ _
      · rw [encodeRune_snd]
        have := Nat.mod_lt (v - surrSelf) (show 0 < 1024 by norm_num)
        simp only [surr2, surr3] at *
        omega

theorem utf16Encode_append (s t : List Nat) :
    utf16Encode (s ++ t) = utf16Encode s ++ utf16Encode t := by
  induction s with
  | nil => simp [utf16Encode]
  | cons v s ih =>
    rw [List.cons_append]
    simp only [utf16Encode]
    rw [ih]
    split
    · simp
    · split <;> simp

theorem utf16Encode_zero : utf16Encode [0] = [0] := by
  simp [utf16Encode, surr1]

theorem zero_not_mem_utf16Encode (s : List Nat) (hs : 0 ∉ s) : 0 ∉ utf16Encode s := by
  induction s with
  | nil => simp [utf16Encode]
  | cons v s ih =>
    have hv : v ≠ 0 := fun h => hs (h ▸ List.mem_cons_self _ _)
    have ih2 := ih (fun h => hs (List.mem_cons_of_mem _ h))
    simp only [utf16Encode]
    split
    · simp only [List.mem_cons, not_or]
      exact ⟨fun h => hv h.symm, ih2⟩
    · split
      · simp only [List.mem_cons, not_or]
        refine ⟨?_, ?_, ih2⟩
        · rw [encodeRune_fst]; simp only [surr1]; omega
        · rw [encodeRune_snd]; simp only [surr2]; omega
      · simp only [List.mem_cons, not_or]
        exact ⟨by simp [replacementChar], ih2⟩

theorem stringOfRunes_valid (s : List Nat) (hs : ∀ r ∈ s, validRune r = true) :
    stringOfRunes s = s := by
  induction s with
  | nil => rfl
  | cons v s ih =>
    have hv : validRune v = true := hs v (List.mem_cons_self _ _)
    have ih2 := ih (fun r hr => hs r (List.mem_cons_of_mem _ hr))
    simp only [stringOfRunes, List.map_cons, hv, if_true] at ih2 ⊢
    rw [ih2]

/-! ## The scan of `unicodeStringToString` -/

theorem loop_eq (memory slice : List Nat) (h : 0 ∈ memory) :
    unicodeStringToString.loop memory slice =
      some (stringOfRunes (utf16Decode (slice ++ memory.takeWhile (fun c => c != 0)))) := by
  induction memory generalizing slice with
  | nil => simp at h
  | cons c memory ih =>
    by_cases hc : c = 0
    · simp [unicodeStringToString.loop, hc]
    · have hm : 0 ∈ memory := by
        rcases List.mem_cons.1 h with h | h
        · exact absurd h.symm hc
        · exact h
      simp [unicodeStringToString.loop, hc, ih _ hm]

theorem takeWhile_append_zero (s t : List Nat) (hs : 0 ∉ s) :
    (s ++ 0 :: t).takeWhile (fun c => c != 0) = s := by
  induction s with
  | nil => simp
  | cons v s ih =>
    have hv : v ≠ 0 := fun h => hs (h ▸ List.mem_cons_self _ _)
    have ih2 := ih (fun h => hs (List.mem_cons_of_mem _ h))
    simp [hv, ih2]

/-! ## The helper functions, case by case -/

theorem unicodeStringToString_wide (t : WideString) :
    unicodeStringToString t.addr t.units = some (decoded t) := by
  unfold unicodeStringToString decoded
  split
  · rw [loop_eq _ _ t.terminated]; simp
  · rfl

theorem firstElement_cons (x : Nat) (xs : List Nat) : firstElement (x :: xs) = some (x :: xs) := by
  simp [firstElement]

theorem securityInfoMap_get (sd owner group : Nat) :
    (((GoMap.make.assign securityDescriptorTag sd).assign ownerTag owner).assign
        groupTag group).get 0 securityDescriptorTag = sd ∧
    (((GoMap.make.assign securityDescriptorTag sd).assign ownerTag owner).assign
        groupTag group).get 0 ownerTag = owner ∧
    (((GoMap.make.assign securityDescriptorTag sd).assign ownerTag owner).assign
        groupTag group).get 0 groupTag = group := by
  refine ⟨?_, ?_, ?_⟩ <;>
    simp [GoMap.get, GoMap.assign, GoMap.make, List.lookup, securityDescriptorTag, ownerTag,
      groupTag, List.filter]

theorem resultMap_entries (a b c : GoString) :
    ((GoMap.make.assign daclTag a).assign ownerTag b).assign groupTag c =
      { entries := [(daclTag, a), (ownerTag, b), (groupTag, c)] } := by
  simp [GoMap.assign, GoMap.make, daclTag, ownerTag, groupTag, List.filter]

theorem securityDescriptorString_eq {W : Type} (os : Win32 W) (sd : Nat) (w : W) :
    securityDescriptorString os sd w =
      if (os.convertSecurityDescriptorToStringSecurityDescriptorW w sd sddlRevision
          desiredSecurityInformation).1.returnVal = 0 then
        some (.error (.sdToStringFailed
          (os.convertSecurityDescriptorToStringSecurityDescriptorW w sd sddlRevision
            desiredSecurityInformation).1.callErr),
          (os.convertSecurityDescriptorToStringSecurityDescriptorW w sd sddlRevision
            desiredSecurityInformation).2,
          [.convertSecurityDescriptorToStringSecurityDescriptorW sd sddlRevision
            desiredSecurityInformation 0
            (os.convertSecurityDescriptorToStringSecurityDescriptorW w sd sddlRevision
              desiredSecurityInformation).1.text])
      else
        some (.ok (decoded (os.convertSecurityDescriptorToStringSecurityDescriptorW w sd
            sddlRevision desiredSecurityInformation).1.text),
          (os.localFree (os.convertSecurityDescriptorToStringSecurityDescriptorW w sd
            sddlRevision desiredSecurityInformation).2
            (os.convertSecurityDescriptorToStringSecurityDescriptorW w sd sddlRevision
              desiredSecurityInformation).1.text.addr).2,
          [.convertSecurityDescriptorToStringSecurityDescriptorW sd sddlRevision
            desiredSecurityInformation
            (os.convertSecurityDescriptorToStringSecurityDescriptorW w sd sddlRevision
              desiredSecurityInformation).1.returnVal
            (os.convertSecurityDescriptorToStringSecurityDescriptorW w sd sddlRevision
              desiredSecurityInformation).1.text,
           .localFree (os.convertSecurityDescriptorToStringSecurityDescriptorW w sd
            sddlRevision desiredSecurityInformation).1.text.addr]) := by
  unfold securityDescriptorString
  simp only [unicodeStringToString_wide, freeWindowsUnicodeText]
  split <;> simp_all

theorem stringFromSid_eq {W : Type} (os : Win32 W) (sid : Nat) (w : W) :
    stringFromSid os sid w =
      if (os.convertSidToStringSidW w sid).1.returnVal = 0 then
        some (.error (.sidToStringFailed (os.convertSidToStringSidW w sid).1.callErr),
          (os.convertSidToStringSidW w sid).2,
          [.convertSidToStringSidW sid 0 (os.convertSidToStringSidW w sid).1.text])
      else
        some (.ok (decoded (os.convertSidToStringSidW w sid).1.text),
          (os.localFree (os.convertSidToStringSidW w sid).2
            (os.convertSidToStringSidW w sid).1.text.addr).2,
          [.convertSidToStringSidW sid (os.convertSidToStringSidW w sid).1.returnVal
            (os.convertSidToStringSidW w sid).1.text,
           .localFree (os.convertSidToStringSidW w sid).1.text.addr]) := by
  unfold stringFromSid
  simp only [unicodeStringToString_wide, freeWindowsUnicodeText]
  split <;> simp_all

/-! ## Every execution has one of the listed shapes -/

theorem GetSecurityDescriptor_run {W : Type} (os : Win32 W) (attributes : WidowsFileAttributes)
    (w : W) :
    ∃ result w1 calls, GetSecurityDescriptor os attributes w = some (result, w1, calls) ∧
      GetRun attributes.windowsFileName result calls := by
  obtain ⟨name⟩ := attributes
  cases name with
  | nil => exact ⟨_, _, _, (by simp [GetSecurityDescriptor, securityInfo]; rfl), .noName rfl⟩
  | cons x xs =>
    have hname : x :: xs ≠ [] := by simp
    simp only [GetSecurityDescriptor, securityInfo, firstElement_cons, List.length_cons]
    generalize os.getNamedSecurityInfoW w (x :: xs) fileSecurityInfo
      desiredSecurityInformation = q
    obtain ⟨⟨ret, ownerSid, groupSid, sd, callErr⟩, w1⟩ := q
    by_cases hret : ret = 0
    swap
    · exact ⟨_, _, _, (by simp [hret]; rfl), .queryFailed ret ownerSid groupSid sd callErr hname hret⟩
    subst hret
    by_cases hsd : sd = 0
    · subst hsd
      exact ⟨_, _, _, (by simp [securityInfoMap_get]; rfl), .noDescriptor ownerSid groupSid hname⟩
    simp only [Nat.add_one_ne_zero, if_false, ne_eq, not_true_eq_false, securityInfoMap_get,
      hsd, GetSecurityDescriptor.deferred, securityDescriptorString_eq,
      freeWindowsSecurityDescriptor]
    generalize os.convertSecurityDescriptorToStringSecurityDescriptorW w1 sd sddlRevision
      desiredSecurityInformation = c
    obtain ⟨⟨r1, t1, e1⟩, w2⟩ := c
    by_cases hr1 : r1 = 0
    · subst hr1
      exact ⟨_, _, _, (by simp; rfl), .sdToStringFailed ownerSid groupSid sd e1 t1 hname hsd⟩
    by_cases howner : ownerSid = 0
    · subst howner
      exact ⟨_, _, _, (by simp [hr1]; rfl), .noOwner groupSid sd r1 t1 hname hsd hr1⟩
    simp only [hr1, if_false, howner, stringFromSid_eq]
    generalize os.convertSidToStringSidW (os.localFree w2 t1.addr).2 ownerSid = c2
    obtain ⟨⟨r2, t2, e2⟩, w3⟩ := c2
    by_cases hr2 : r2 = 0
    · subst hr2
      exact ⟨_, _, _, (by simp; rfl),
        .ownerFailed ownerSid groupSid sd r1 e2 t1 t2 hname hsd hr1 howner⟩
    by_cases hgroup : groupSid = 0
    · subst hgroup
      exact ⟨_, _, _, (by simp [hr2]; rfl), .noGroup ownerSid sd r1 r2 t1 t2 hname hsd hr1 howner hr2⟩
    simp only [hr2, if_false, hgroup]
    generalize os.convertSidToStringSidW (os.localFree w3 t2.addr).2 groupSid = c3
    obtain ⟨⟨r3, t3, e3⟩, w4⟩ := c3
    by_cases hr3 : r3 = 0
    · subst hr3
      exact ⟨_, _, _, (by simp; rfl),
        .groupFailed ownerSid groupSid sd r1 r2 e3 t1 t2 t3 hname hsd hr1 howner hr2 hgroup⟩
    · exact ⟨_, _, _, (by simp [hr3, resultMap_entries]; rfl),
        .done ownerSid groupSid sd r1 r2 r3 t1 t2 t3 hname hsd hr1 howner hr2 hgroup hr3⟩

theorem UTF16FromString_eq (s : GoString) (hs : 0 ∉ s) :
    UTF16FromString s = some (utf16Encode s ++ [0]) := by
  simp [UTF16FromString, hs, utf16Encode_append, utf16Encode_zero]

theorem firstElement_append (xs : List Nat) (x : Nat) :
    firstElement (xs ++ [x]) = some (xs ++ [x]) := by
  simp [firstElement]

theorem SetSecurityDescriptor_run {W : Type} (os : Win32 W) (attributes : WidowsFileAttributes)
    (s : GoString) (w : W) :
    ∃ err w1 calls, SetSecurityDescriptor os attributes s w = some (err, w1, calls) ∧
      SetRun attributes.windowsFileName s err calls := by
  by_cases hs : 0 ∈ s
  · exact ⟨_, _, _, (by simp [SetSecurityDescriptor, UTF16FromString, hs]; rfl), .nul hs⟩
  have henc : UTF16FromString s = some (utf16Encode (s ++ [0])) := by
    simp [UTF16FromString, hs]
  have hfirst : firstElement (utf16Encode (s ++ [0])) = some (utf16Encode (s ++ [0])) := by
    rw [utf16Encode_append, utf16Encode_zero, firstElement_append]
  simp only [SetSecurityDescriptor, henc, hfirst,
    freeWindowsSecurityDescriptor, SetSecurityDescriptor.deferred]
  generalize os.convertStringSecurityDescriptorToSecurityDescriptorW w (utf16Encode (s ++ [0]))
    sddlRevision = c
  obtain ⟨⟨r1, sd, e1⟩, w1⟩ := c
  by_cases hr1 : r1 = 0
  · subst hr1
    exact ⟨_, _, _, (by simp; rfl), .parseFailed sd e1 hs⟩
  obtain ⟨name⟩ := attributes
  cases name with
  | nil => exact ⟨_, _, _, (by simp [hr1]; rfl), .noName r1 sd hs hr1 rfl⟩
  | cons x xs =>
    have hname : x :: xs ≠ [] := by simp
    simp only [hr1, if_false, firstElement_cons, List.length_cons, Nat.add_one_ne_zero]
    generalize os.setFileSecurityW w1 (x :: xs) desiredSecurityInformation sd = c2
    obtain ⟨⟨r2, e2⟩, w2⟩ := c2
    by_cases hr2 : r2 = 0
    · subst hr2
      exact ⟨_, _, _, (by simp; rfl), .applyFailed r1 sd e2 hs hr1 hname⟩
    · exact ⟨_, _, _, (by simp [hr2]; rfl), .done r1 sd r2 hs hr1 hname hr2⟩

/-! ## What the OS records is what the module reports -/

theorem GetSecurityDescriptor_recorded {W : Type} (os : Win32 W)
    (attributes : WidowsFileAttributes) (w : W) (log : List Call) :
    ∃ result w1 calls, GetSecurityDescriptor os attributes w = some (result, w1, calls) ∧
      GetSecurityDescriptor (recording os) attributes (w, log) =
        some (result, (w1, log ++ calls), calls) ∧
      GetRun attributes.windowsFileName result calls ∧
      ∀ c ∈ calls, os.answered c := by
  obtain ⟨name⟩ := attributes
  cases name with
  | nil =>
    exact ⟨_, _, _, (by simp [GetSecurityDescriptor, securityInfo]; rfl),
      by simp [GetSecurityDescriptor, securityInfo], .noName rfl, by simp⟩
  | cons x xs =>
    have hname : x :: xs ≠ [] := by simp
    simp only [GetSecurityDescriptor, securityInfo, firstElement_cons, List.length_cons,
      recording]
    generalize hq : os.getNamedSecurityInfoW w (x :: xs) fileSecurityInfo
      desiredSecurityInformation = q
    obtain ⟨⟨ret, ownerSid, groupSid, sd, callErr⟩, w1⟩ := q
    by_cases hret : ret = 0
    swap
    · exact ⟨_, _, _, (by simp [hret]; rfl), by simp [hret],
        .queryFailed ret ownerSid groupSid sd callErr hname hret, by simp [Win32.answered]⟩
    subst hret
    by_cases hsd : sd = 0
    · subst hsd
      exact ⟨_, _, _, (by simp [securityInfoMap_get]; rfl), by simp [securityInfoMap_get],
        .noDescriptor ownerSid groupSid hname, by simp [Win32.answered]⟩
    simp only [Nat.add_one_ne_zero, if_false, ne_eq, not_true_eq_false, securityInfoMap_get,
      hsd, GetSecurityDescriptor.deferred, securityDescriptorString_eq,
      freeWindowsSecurityDescriptor, recording]
    generalize hc : os.convertSecurityDescriptorToStringSecurityDescriptorW w1 sd sddlRevision
      desiredSecurityInformation = c
    obtain ⟨⟨r1, t1, e1⟩, w2⟩ := c
    have ha1 : os.answered (.convertSecurityDescriptorToStringSecurityDescriptorW sd
        sddlRevision desiredSecurityInformation r1 t1) := ⟨w1, by rw [hc], by rw [hc]⟩
    by_cases hr1 : r1 = 0
    · subst hr1
      exact ⟨_, _, _, (by simp; rfl), by simp,
        .sdToStringFailed ownerSid groupSid sd e1 t1 hname hsd,
        by simpa [Win32.answered] using ha1⟩
    by_cases howner : ownerSid = 0
    · subst howner
      exact ⟨_, _, _, (by simp [hr1]; rfl), by simp [hr1],
        .noOwner groupSid sd r1 t1 hname hsd hr1, by simpa [Win32.answered] using ha1⟩
    simp only [hr1, if_false, howner, stringFromSid_eq, recording]
    generalize hc2 : os.convertSidToStringSidW (os.localFree w2 t1.addr).2 ownerSid = c2
    obtain ⟨⟨r2, t2, e2⟩, w3⟩ := c2
    have ha2 : os.answered (.convertSidToStringSidW ownerSid r2 t2) :=
      ⟨_, by rw [hc2], by rw [hc2]⟩
    by_cases hr2 : r2 = 0
    · subst hr2
      exact ⟨_, _, _, (by simp; rfl), by simp,
        .ownerFailed ownerSid groupSid sd r1 e2 t1 t2 hname hsd hr1 howner,
        by simpa [Win32.answered] using ⟨ha1, ha2⟩⟩
    by_cases hgroup : groupSid = 0
    · subst hgroup
      exact ⟨_, _, _, (by simp [hr2]; rfl), by simp [hr2],
        .noGroup ownerSid sd r1 r2 t1 t2 hname hsd hr1 howner hr2,
        by simpa [Win32.answered] using ⟨ha1, ha2⟩⟩
    simp only [hr2, if_false, hgroup]
    generalize hc3 : os.convertSidToStringSidW (os.localFree w3 t2.addr).2 groupSid = c3
    obtain ⟨⟨r3, t3, e3⟩, w4⟩ := c3
    have ha3 : os.answered (.convertSidToStringSidW groupSid r3 t3) :=
      ⟨_, by rw [hc3], by rw [hc3]⟩
    by_cases hr3 : r3 = 0
    · subst hr3
      exact ⟨_, _, _, (by simp; rfl), by simp,
        .groupFailed ownerSid groupSid sd r1 r2 e3 t1 t2 t3 hname hsd hr1 howner hr2 hgroup,
        by simpa [Win32.answered] using ⟨ha1, ha2, ha3⟩⟩
    · exact ⟨_, _, _, (by simp [hr3, resultMap_entries]; rfl), by simp [hr3, resultMap_entries],
        .done ownerSid groupSid sd r1 r2 r3 t1 t2 t3 hname hsd hr1 howner hr2 hgroup hr3,
        by simpa [Win32.answered] using ⟨ha1, ha2, ha3⟩⟩

theorem SetSecurityDescriptor_recorded {W : Type} (os : Win32 W)
    (attributes : WidowsFileAttributes) (s : GoString) (w : W) (log : List Call) :
    ∃ err w1 calls, SetSecurityDescriptor os attributes s w = some (err, w1, calls) ∧
      SetSecurityDescriptor (recording os) attributes s (w, log) =
        some (err, (w1, log ++ calls), calls) ∧
      SetRun attributes.windowsFileName s err calls := by
  by_cases hs : 0 ∈ s
  · exact ⟨_, _, _, (by simp [SetSecurityDescriptor, UTF16FromString, hs]; rfl),
      by simp [SetSecurityDescriptor, UTF16FromString, hs], .nul hs⟩
  have henc : UTF16FromString s = some (utf16Encode (s ++ [0])) := by
    simp [UTF16FromString, hs]
  have hfirst : firstElement (utf16Encode (s ++ [0])) = some (utf16Encode (s ++ [0])) := by
    rw [utf16Encode_append, utf16Encode_zero, firstElement_append]
  simp only [SetSecurityDescriptor, henc, hfirst,
    freeWindowsSecurityDescriptor, SetSecurityDescriptor.deferred, recording]
  generalize os.convertStringSecurityDescriptorToSecurityDescriptorW w (utf16Encode (s ++ [0]))
    sddlRevision = c
  obtain ⟨⟨r1, sd, e1⟩, w1⟩ := c
  by_cases hr1 : r1 = 0
  · subst hr1
    exact ⟨_, _, _, (by simp; rfl), by simp, .parseFailed sd e1 hs⟩
  obtain ⟨name⟩ := attributes
  cases name with
  | nil => exact ⟨_, _, _, (by simp [hr1]; rfl), by simp [hr1], .noName r1 sd hs hr1 rfl⟩
  | cons x xs =>
    have hname : x :: xs ≠ [] := by simp
    simp only [hr1, if_false, firstElement_cons, List.length_cons, Nat.add_one_ne_zero]
    generalize os.setFileSecurityW w1 (x :: xs) desiredSecurityInformation sd = c2
    obtain ⟨⟨r2, e2⟩, w2⟩ := c2
    by_cases hr2 : r2 = 0
    · subst hr2
      exact ⟨_, _, _, (by simp; rfl), by simp, .applyFailed r1 sd e2 hs hr1 hname⟩
    · exact ⟨_, _, _, (by simp [hr2]; rfl), by simp [hr2], .done r1 sd r2 hs hr1 hname hr2⟩

/-! ## Two executions on the sample OS -/

theorem GetSecurityDescriptor_sample :
    GetSecurityDescriptor sampleOS sampleAttributes () =
      some (.ok sampleMap, (), sampleGetCalls) := rfl

theorem GetSecurityDescriptor_sample_recorded :
    GetSecurityDescriptor (recording sampleOS) sampleAttributes ((), []) =
      some (.ok sampleMap, ((), sampleGetCalls), sampleGetCalls) := rfl

theorem SetSecurityDescriptor_sample_recorded :
    SetSecurityDescriptor (recording sampleOS) sampleAttributes [68, 58] ((), []) =
      some (none, ((), sampleSetCalls), sampleSetCalls) := rfl

theorem SetSecurityDescriptor_sample :
    SetSecurityDescriptor sampleOS sampleAttributes [68, 58] () =
      some (none, (), sampleSetCalls) := rfl

/-! ## Relaying text between the OS and the caller -/

/-- The string the module makes of an OS text that is the UTF-16 encoding of
the NUL-free valid string `s` is `s`, and `SetSecurityDescriptor` on `s` hands
the OS that same text again. -/
theorem text_relayed_unchanged {W : Type} (os : Win32 W) (attributes : WidowsFileAttributes)
    (w : W) (t : WideString) (s : GoString) (rest : List Nat) (haddr : t.addr ≠ 0)
    (hunits : t.units = utf16Encode s ++ 0 :: rest) (hvalid : ∀ r ∈ s, validRune r = true)
    (hs : 0 ∉ s) :
    decoded t = s ∧
    ∃ err w1 calls, SetSecurityDescriptor os attributes (decoded t) w = some (err, w1, calls) ∧
      ∃ returnVal sd, calls.head? =
        some (.convertStringSecurityDescriptorToSecurityDescriptorW (utf16Encode s ++ [0])
          sddlRevision returnVal sd) := by
  have hdec : decoded t = s := by
    simp only [decoded, ne_eq, haddr, not_false_eq_true, if_true, hunits]
    rw [takeWhile_append_zero _ _ (zero_not_mem_utf16Encode s hs),
      utf16Decode_utf16Encode s hvalid, stringOfRunes_valid s hvalid]
  refine ⟨hdec, ?_⟩
  rw [hdec]
  obtain ⟨err, w1, calls, h, hrun⟩ := SetSecurityDescriptor_run os attributes s w
  refine ⟨err, w1, calls, h, ?_⟩
  have henc : utf16Encode (s ++ [0]) = utf16Encode s ++ [0] := by
    rw [utf16Encode_append, utf16Encode_zero]
  cases hrun <;> simp_all

/-! ## Lifetime of the buffers the OS allocates -/

theorem ledger_reports_leak :
    ledger [.convertSidToStringSidW 0x1010 1 sampleSidText] [] = some [0x3000] := by
  decide

theorem ledger_reports_double_free :
    ledger [.convertSidToStringSidW 0x1010 1 sampleSidText, .localFree 0x3000,
      .localFree 0x3000] [] = none := by
  decide

theorem ledger_sampleGetCalls : ledger sampleGetCalls [] = some [] := by
  decide

/-- C2. On every exit path of `GetSecurityDescriptor` and of
`SetSecurityDescriptor` (the operations always return), every buffer the OS
allocated during the operation is passed to `LocalFree` exactly once before
the operation returns. This is read off the record the OS itself keeps of
the calls it receives: in that record each `LocalFree` of a non-nil pointer
releases a buffer that is live at that moment, no buffer is live when the
operation returns, and every non-nil pointer is freed as often as it was
allocated. The list of calls the operation reports is that record, and the
result and the world are those of the run on the OS without a record. -/
theorem buffers_released_exactly_once {W : Type} (os : Win32 W)
    (attributes : WidowsFileAttributes) (s : GoString) (w : W) :
    (∃ result w1 log calls,
      GetSecurityDescriptor (recording os) attributes (w, []) =
        some (result, (w1, log), calls) ∧
      GetSecurityDescriptor os attributes w = some (result, w1, calls) ∧
      calls = log ∧
      ledger log [] = some [] ∧ ∀ p, p ≠ 0 → freeCount p log = allocCount p log) ∧
    (∃ err w1 log calls,
      SetSecurityDescriptor (recording os) attributes s (w, []) =
        some (err, (w1, log), calls) ∧
      SetSecurityDescriptor os attributes s w = some (err, w1, calls) ∧
      calls = log ∧
      ledger log [] = some [] ∧ ∀ p, p ≠ 0 → freeCount p log = allocCount p log) := by
  constructor
  · obtain ⟨result, w1, calls, h, hrec, hrun, -⟩ :=
      GetSecurityDescriptor_recorded os attributes w []
    rw [List.nil_append] at hrec
    refine ⟨result, w1, calls, calls, hrec, h, rfl, ?_, ?_⟩
    · cases hrun <;> simp [ledger, Call.allocates, *] <;> split_ifs <;> simp_all
    · intro p hp
      cases hrun
      all_goals simp [freeCount, allocCount, Call.allocates, *]
      all_goals try split_ifs
      all_goals try simp_all
      all_goals omega
  · obtain ⟨err, w1, calls, h, hrec, hrun⟩ :=
      SetSecurityDescriptor_recorded os attributes s w []
    rw [List.nil_append] at hrec
    refine ⟨err, w1, calls, calls, hrec, h, rfl, ?_, ?_⟩
    · cases hrun <;> simp [ledger, Call.allocates, *] <;> split_ifs <;> simp_all
    · intro p hp
      cases hrun
      all_goals simp [freeCount, allocCount, Call.allocates, *]
      all_goals try split_ifs
      all_goals try simp_all
      all_goals omega

/-! ## When `GetSecurityDescriptor` fails, and what it returns -/

/-- C7, counterexample. On the zero value of `WidowsFileAttributes`
`GetSecurityDescriptor` returns the error "file name is not set" without
making any OS call, on an OS whose query would return 0 with descriptor,
owner and group set and whose conversions would all succeed: an error for
which none of the conditions of the claim holds. -/
theorem getSecurityDescriptor_error_without_os_failure :
    GetSecurityDescriptor sampleOS zeroAttributes () =
      some (.error .fileNameNotSet, (), []) ∧
    GetSecurityDescriptor (recording sampleOS) zeroAttributes ((), []) =
      some (.error .fileNameNotSet, ((), []), []) ∧
    (sampleOS.getNamedSecurityInfoW () zeroAttributes.windowsFileName fileSecurityInfo
      desiredSecurityInformation).1.returnVal = 0 ∧
    (sampleOS.getNamedSecurityInfoW () zeroAttributes.windowsFileName fileSecurityInfo
      desiredSecurityInformation).1.securityDescriptor ≠ 0 ∧
    (sampleOS.getNamedSecurityInfoW () zeroAttributes.windowsFileName fileSecurityInfo
      desiredSecurityInformation).1.ownerSid ≠ 0 ∧
    (sampleOS.getNamedSecurityInfoW () zeroAttributes.windowsFileName fileSecurityInfo
      desiredSecurityInformation).1.groupSid ≠ 0 ∧
    (sampleOS.convertSecurityDescriptorToStringSecurityDescriptorW () 0x1000 sddlRevision
      desiredSecurityInformation).1.returnVal ≠ 0 ∧
    (sampleOS.convertSidToStringSidW () 0x1010).1.returnVal ≠ 0 ∧
    (sampleOS.convertSidToStringSidW () 0x1020).1.returnVal ≠ 0 := by
  refine ⟨rfl, rfl, rfl, ?_, ?_, ?_, ?_, ?_, ?_⟩ <;> decide

/-- C7, amended. `GetSecurityDescriptor` always returns. It returns an error
(and no map) if and only if the file name is empty, or the query call returns
non-zero or leaves the descriptor, owner or group pointer nil, or a conversion
of the descriptor, the owner or the group to text fails. On an empty file name
the error is "file name is not set", the OS receives no call and the world
stays as it was; a value built by `NewWidowsFileAttributes` never has an empty
file name. Otherwise the calls the OS receives are the query, the conversion
of the queried descriptor, the conversions of the queried owner and group and
the four releases, and the map has exactly the keys "dacl", "owner", "group"
(and not "securityDescriptor"), with the decoded SDDL text the OS answered for
the queried descriptor and the decoded SID texts it answered for the queried
owner and group as values. The calls are those of the record the OS itself
keeps; the list the operation reports is that record. -/
theorem getSecurityDescriptor_outcome {W : Type} (os : Win32 W)
    (attributes : WidowsFileAttributes) (w : W) :
    ∃ result w1 log calls,
      GetSecurityDescriptor (recording os) attributes (w, []) =
        some (result, (w1, log), calls) ∧
      GetSecurityDescriptor os attributes w = some (result, w1, calls) ∧
      calls = log ∧
      ((∃ err, result = .error err) ↔
        (attributes.windowsFileName = [] ∨ ∃ c ∈ log, c.stopsGet = true)) ∧
      (attributes.windowsFileName = [] →
        result = .error .fileNameNotSet ∧ log = [] ∧ w1 = w) ∧
      (∀ goos filePath, NewWidowsFileAttributes goos filePath = .ok attributes →
        attributes.windowsFileName ≠ []) ∧
      (∀ m, result = .ok m →
        ∃ ownerSid groupSid sd r1 r2 r3 t1 t2 t3,
          log =
            [.getNamedSecurityInfoW attributes.windowsFileName fileSecurityInfo
              desiredSecurityInformation 0 ownerSid groupSid sd,
             .convertSecurityDescriptorToStringSecurityDescriptorW sd sddlRevision
              desiredSecurityInformation r1 t1,
             .localFree t1.addr,
             .convertSidToStringSidW ownerSid r2 t2,
             .localFree t2.addr,
             .convertSidToStringSidW groupSid r3 t3,
             .localFree t3.addr,
             .localFree sd] ∧
          m.keys = ["dacl", "owner", "group"] ∧
          securityDescriptorTag ∉ m.keys ∧
          m.get [] daclTag = decoded t1 ∧
          m.get [] ownerTag = decoded t2 ∧
          m.get [] groupTag = decoded t3) := by
  obtain ⟨result, w1, calls, h, hrec, hrun, -⟩ :=
    GetSecurityDescriptor_recorded os attributes w []
  rw [List.nil_append] at hrec
  refine ⟨result, w1, calls, calls, hrec, h, rfl, ?_, ?_, ?_, ?_⟩
  · cases hrun <;> simp_all [Call.stopsGet]
  · intro hname
    have hrun2 : GetRun attributes.windowsFileName result calls := hrun
    cases hrun <;> try contradiction
    refine ⟨rfl, rfl, ?_⟩
    obtain ⟨name⟩ := attributes
    simp only at hname
    subst hname
    simp [GetSecurityDescriptor, securityInfo] at h
    exact h.symm
  · intro goos filePath hnew
    unfold NewWidowsFileAttributes at hnew
    by_cases hg : goos = "windows"
    · by_cases hp : 0 ∈ filePath
      · simp [hg, UTF16FromString, hp] at hnew
      · simp only [hg, ne_eq, not_true_eq_false, if_false, UTF16FromString_eq _ hp,
          Except.ok.injEq] at hnew
        subst hnew
        simp
    · simp [hg] at hnew
  · intro m hm
    cases hrun <;> simp at hm
    subst hm
    exact ⟨_, _, _, _, _, _, _, _, _, rfl, by
      simp [GoMap.keys, GoMap.get, List.lookup, daclTag, ownerTag, groupTag,
        securityDescriptorTag]⟩

/-! ## Emptiness of the returned strings -/

theorem utf16Decode_eq_nil (s : List Nat) : utf16Decode s = [] ↔ s = [] := by
  constructor
  · intro h
    match s, h with
    | [], _ => rfl
    | [r], h => simp only [utf16Decode] at h; split at h <;> simp at h
    | r :: r2 :: s, h =>
      simp only [utf16Decode] at h
      split at h
      · simp at h
      · split at h <;> simp at h
  · intro h
    subst h
    rfl

theorem decoded_eq_nil (t : WideString) :
    decoded t = [] ↔ (t.addr = 0 ∨ t.units.head? = some 0) := by
  obtain ⟨addr, units, hterm⟩ := t
  by_cases haddr : addr = 0
  · simp [decoded, haddr]
  · cases units with
    | nil => simp at hterm
    | cons c cs =>
      by_cases hc : c = 0
      · simp [decoded, haddr, hc, stringOfRunes, utf16Decode]
      · simp [decoded, haddr, hc, stringOfRunes, utf16Decode_eq_nil]

theorem decoded_ne_nil (t : WideString) (haddr : t.addr ≠ 0)
    (hhead : t.units.head? ≠ some 0) : decoded t ≠ [] := by
  intro h
  rcases (decoded_eq_nil t).1 h with h | h
  · exact haddr h
  · exact hhead h

theorem sampleOS_textContract : sampleOS.textContract := by
  constructor
  · intro w sd revision securityInfo _
    simp [sampleOS, sampleSddlText]
  · intro w sid _
    simp [sampleOS, sampleSidText]

/-- C3. On an OS that keeps the Win32 contract of the conversions to text (a
conversion that reports success sets its out-pointer to a string that is not
empty), whenever `GetSecurityDescriptor` returns without error it returns a
map, with exactly the keys "dacl", "owner" and "group", whose values under
"owner", "group" and "dacl" are all non-empty strings. -/
theorem getSecurityDescriptor_values_nonempty {W : Type} (os : Win32 W)
    (hos : os.textContract) (attributes : WidowsFileAttributes) (w w1 : W)
    (m : GoMap GoString) (calls : List Call)
    (h : GetSecurityDescriptor os attributes w = some (.ok m, w1, calls)) :
    m.keys = ["dacl", "owner", "group"] ∧
    m.get [] ownerTag ≠ [] ∧ m.get [] groupTag ≠ [] ∧ m.get [] daclTag ≠ [] := by
  obtain ⟨result, w2, calls2, h2, -, hrun, hans⟩ :=
    GetSecurityDescriptor_recorded os attributes w []
  rw [h] at h2
  simp only [Option.some.injEq, Prod.mk.injEq] at h2
  obtain ⟨hres, -, hcalls⟩ := h2
  subst hres hcalls
  generalize hr : (Except.ok m : Except Err (GoMap GoString)) = result at hrun
  cases hrun <;> simp at hr
  subst hr
  rename_i ownerSid groupSid sd r1 r2 r3 t1 t2 t3 hname hsd hr1 howner hr2 hgroup hr3
  have h1 : decoded t1 ≠ [] := by
    obtain ⟨wa, hret, htext⟩ := hans
      (.convertSecurityDescriptorToStringSecurityDescriptorW sd sddlRevision
        desiredSecurityInformation r1 t1) (by simp)
    have hc := hos.1 wa sd sddlRevision desiredSecurityInformation (by rw [hret]; exact hr1)
    rw [htext] at hc
    exact decoded_ne_nil t1 hc.1 hc.2
  have h2 : decoded t2 ≠ [] := by
    obtain ⟨wa, hret, htext⟩ := hans (.convertSidToStringSidW ownerSid r2 t2) (by simp)
    have hc := hos.2 wa ownerSid (by rw [hret]; exact hr2)
    rw [htext] at hc
    exact decoded_ne_nil t2 hc.1 hc.2
  have h3 : decoded t3 ≠ [] := by
    obtain ⟨wa, hret, htext⟩ := hans (.convertSidToStringSidW groupSid r3 t3) (by simp)
    have hc := hos.2 wa groupSid (by rw [hret]; exact hr3)
    rw [htext] at hc
    exact decoded_ne_nil t3 hc.1 hc.2
  refine ⟨by simp [GoMap.keys, daclTag, ownerTag, groupTag], ?_, ?_, ?_⟩ <;>
    simpa [GoMap.get, List.lookup, daclTag, ownerTag, groupTag]

/-- C3, witness: the test file on the sample OS, which keeps the contract. -/
theorem getSecurityDescriptor_values_nonempty_witness :
    sampleOS.textContract ∧
    GetSecurityDescriptor sampleOS sampleAttributes () =
      some (.ok sampleMap, (), sampleGetCalls) ∧
    (sampleMap.keys = ["dacl", "owner", "group"] ∧
    sampleMap.get [] ownerTag ≠ [] ∧ sampleMap.get [] groupTag ≠ [] ∧
    sampleMap.get [] daclTag ≠ []) :=
  ⟨sampleOS_textContract, rfl,
    getSecurityDescriptor_values_nonempty sampleOS sampleOS_textContract sampleAttributes
      () () sampleMap sampleGetCalls rfl⟩

/-! ## The errors the operations return -/

/-- C4, counterexample. `GetSecurityDescriptor` and `SetSecurityDescriptor` on
the zero value of `WidowsFileAttributes` return the error "file name is not
set", and `NewWidowsFileAttributes` off Windows returns "WidowsFileAttributes
only works on Windows"; neither error is in any of the six classes. -/
theorem errors_outside_the_six_classes :
    GetSecurityDescriptor sampleOS zeroAttributes () =
      some (.error .fileNameNotSet, (), []) ∧
    (SetSecurityDescriptor sampleOS zeroAttributes [68, 58] ()).map (fun r => r.1) =
      some (some .fileNameNotSet) ∧
    specErrorClass .fileNameNotSet = none ∧
    (NewWidowsFileAttributes "linux" fileName).toOption = none ∧
    NewWidowsFileAttributes "linux" fileName = .error .notWindows ∧
    specErrorClass .notWindows = none := by
  refine ⟨rfl, rfl, rfl, rfl, rfl, rfl⟩

/-- C4, amended. Every error the three public operations return is either
one of two errors outside the taxonomy, "only works on Windows" (returned by
`NewWidowsFileAttributes` exactly off Windows) and "file name is not set"
(returned by the two other operations only on a value with an empty file name),
or belongs to exactly one class of the taxonomy: path-encoding failure for
`NewWidowsFileAttributes`; query, descriptor-to-string or SID-to-string
conversion failure for `GetSecurityDescriptor`; path-encoding,
descriptor-parse or apply failure for `SetSecurityDescriptor`. -/
theorem errors_classified {W : Type} (os : Win32 W) (attributes : WidowsFileAttributes)
    (s : GoString) (w : W) (goos : String) (filePath : GoString) :
    (∀ err, NewWidowsFileAttributes goos filePath = .error err →
      (err = .notWindows ∧ goos ≠ "windows") ∨
      (goos = "windows" ∧ specErrorClass err = some .pathEncodingFailure)) ∧
    (∀ err w1 calls, GetSecurityDescriptor os attributes w = some (.error err, w1, calls) →
      (err = .fileNameNotSet ∧ attributes.windowsFileName = []) ∨
      specErrorClass err = some .queryFailure ∨
      specErrorClass err = some .descriptorStringConversionFailure ∨
      specErrorClass err = some .identifierStringConversionFailure) ∧
    (∀ err w1 calls, SetSecurityDescriptor os attributes s w = some (some err, w1, calls) →
      (err = .fileNameNotSet ∧ attributes.windowsFileName = []) ∨
      specErrorClass err = some .pathEncodingFailure ∨
      specErrorClass err = some .descriptorParseFailure ∨
      specErrorClass err = some .applyFailure) := by
  refine ⟨?_, ?_, ?_⟩
  · intro err h
    unfold NewWidowsFileAttributes at h
    by_cases hg : goos = "windows"
    · right
      refine ⟨hg, ?_⟩
      simp only [hg, ne_eq, not_true_eq_false, if_false] at h
      split at h
      · simp only [Except.error.injEq] at h
        subst h
        rfl
      · simp at h
    · left
      simp only [ne_eq, hg, not_false_eq_true, if_true, Except.error.injEq] at h
      exact ⟨h.symm, hg⟩
  · intro err w1 calls h
    obtain ⟨result, w2, calls2, h2, hrun⟩ := GetSecurityDescriptor_run os attributes w
    rw [h] at h2
    simp only [Option.some.injEq, Prod.mk.injEq] at h2
    obtain ⟨hres, -, -⟩ := h2
    subst hres
    generalize hr : (Except.error err : Except Err (GoMap GoString)) = result at hrun
    cases hrun <;> simp at hr <;> subst hr <;> simp_all [specErrorClass]
  · intro err w1 calls h
    obtain ⟨result, w2, calls2, h2, hrun⟩ := SetSecurityDescriptor_run os attributes s w
    rw [h] at h2
    simp only [Option.some.injEq, Prod.mk.injEq] at h2
    obtain ⟨hres, -, -⟩ := h2
    subst hres
    generalize hr : some err = result at hrun
    cases hrun <;> simp at hr <;> subst hr <;> simp_all [specErrorClass]

/-- C4, witness: the three operations on inputs on which each returns an
error outside the taxonomy. -/
theorem errors_classified_witness :
    (((.notWindows : Err) = .notWindows ∧ "linux" ≠ "windows") ∨
      ("linux" = "windows" ∧ specErrorClass .notWindows = some .pathEncodingFailure)) ∧
    (((.fileNameNotSet : Err) = .fileNameNotSet ∧ zeroAttributes.windowsFileName = []) ∨
      specErrorClass .fileNameNotSet = some .queryFailure ∨
      specErrorClass .fileNameNotSet = some .descriptorStringConversionFailure ∨
      specErrorClass .fileNameNotSet = some .identifierStringConversionFailure) ∧
    (((.parseFailed 1336 : Err) = .fileNameNotSet ∧ sampleAttributes.windowsFileName = []) ∨
      specErrorClass (.parseFailed 1336) = some .pathEncodingFailure ∨
      specErrorClass (.parseFailed 1336) = some .descriptorParseFailure ∨
      specErrorClass (.parseFailed 1336) = some .applyFailure) :=
  ⟨(errors_classified sampleOS zeroAttributes [68, 58] () "linux" fileName).1 .notWindows rfl,
    (errors_classified sampleOS zeroAttributes [68, 58] () "linux" fileName).2.1
      .fileNameNotSet () [] rfl,
    (errors_classified rejectingOS sampleAttributes [68, 58] () "linux" fileName).2.2
      (.parseFailed 1336) ()
      [.convertStringSecurityDescriptorToSecurityDescriptorW [68, 58, 0] 1 0 0] rfl⟩

/-! ## The security-information mask -/

/-- C5, counterexample. The mask is not OWNER|GROUP|DACL = 7: it also selects
the attribute part (bit 32). -/
theorem desiredSecurityInformation_is_not_seven :
    desiredSecurityInformation ≠ 7 ∧
    desiredSecurityInformation ≠
      (ownerSecurityInformation ||| groupSecurityInformation ||| daclSecurityInformation) ∧
    desiredSecurityInformation &&& attributeSecurityInformation = 32 := by
  decide

/-- C5, amended. The mask `desiredSecurityInformation` selects exactly the
owner, group, DACL and attribute parts, OWNER|GROUP|DACL|ATTRIBUTE = 1|2|4|32 =
39, and every query call, descriptor-to-string conversion and apply call that
`GetSecurityDescriptor` and `SetSecurityDescriptor` make is given that mask. -/
theorem desiredSecurityInformation_value {W : Type} (os : Win32 W)
    (attributes : WidowsFileAttributes) (s : GoString) (w : W) :
    desiredSecurityInformation = 39 ∧
    desiredSecurityInformation = (1 ||| 2 ||| 4 ||| 32) ∧
    (∃ result w1 calls, GetSecurityDescriptor os attributes w = some (result, w1, calls) ∧
      ∀ c ∈ calls, ∀ mask, c.securityInfoArg = some mask → mask = 39) ∧
    (∃ err w1 calls, SetSecurityDescriptor os attributes s w = some (err, w1, calls) ∧
      ∀ c ∈ calls, ∀ mask, c.securityInfoArg = some mask → mask = 39) := by
  have h39 : desiredSecurityInformation = 39 := by decide
  refine ⟨h39, by decide, ?_, ?_⟩
  · obtain ⟨result, w1, calls, h, hrun⟩ := GetSecurityDescriptor_run os attributes w
    refine ⟨result, w1, calls, h, ?_⟩
    cases hrun <;> simp [Call.securityInfoArg, h39]
  · obtain ⟨err, w1, calls, h, hrun⟩ := SetSecurityDescriptor_run os attributes s w
    refine ⟨err, w1, calls, h, ?_⟩
    cases hrun <;> simp [Call.securityInfoArg, h39]

/-! ## Early failures of `SetSecurityDescriptor` -/

/-- C8. `SetSecurityDescriptor` always returns. For a string that contains a
NUL it returns an error without making any OS call and leaves the world as it
was. For a string the OS fails to parse it returns an error after that one
call: `SetFileSecurityW` is never called. And it returns nil only when the
parse call and the apply call both reported success. -/
theorem setSecurityDescriptor_early_failures {W : Type} (os : Win32 W)
    (attributes : WidowsFileAttributes) (s : GoString) (w : W) :
    (0 ∈ s → SetSecurityDescriptor os attributes s w = some (some (.convertFailed s), w, [])) ∧
    (0 ∉ s →
      (os.convertStringSecurityDescriptorToSecurityDescriptorW w (utf16Encode (s ++ [0]))
        sddlRevision).1.returnVal = 0 →
      SetSecurityDescriptor os attributes s w =
        some (some (.parseFailed
            (os.convertStringSecurityDescriptorToSecurityDescriptorW w (utf16Encode (s ++ [0]))
              sddlRevision).1.callErr),
          (os.convertStringSecurityDescriptorToSecurityDescriptorW w (utf16Encode (s ++ [0]))
            sddlRevision).2,
          [.convertStringSecurityDescriptorToSecurityDescriptorW (utf16Encode (s ++ [0]))
            sddlRevision 0
            (os.convertStringSecurityDescriptorToSecurityDescriptorW w (utf16Encode (s ++ [0]))
              sddlRevision).1.securityDescriptor])) ∧
    (∃ err w1 calls, SetSecurityDescriptor os attributes s w = some (err, w1, calls) ∧
      ((∃ c ∈ calls, c.isParseFailure = true) →
        err ≠ none ∧ ∀ c ∈ calls, c.isApply = false) ∧
      (err = none →
        (∃ c ∈ calls, c.isParseSuccess = true) ∧ (∃ c ∈ calls, c.isApplySuccess = true))) := by
  refine ⟨?_, ?_, ?_⟩
  · intro hs
    simp [SetSecurityDescriptor, UTF16FromString, hs]
  · intro hs hret
    have henc : UTF16FromString s = some (utf16Encode (s ++ [0])) := by
      simp [UTF16FromString, hs]
    have hfirst : firstElement (utf16Encode (s ++ [0])) = some (utf16Encode (s ++ [0])) := by
      rw [utf16Encode_append, utf16Encode_zero, firstElement_append]
    simp only [SetSecurityDescriptor, henc, hfirst, hret, if_true]
  · obtain ⟨err, w1, calls, h, hrun⟩ := SetSecurityDescriptor_run os attributes s w
    refine ⟨err, w1, calls, h, ?_, ?_⟩
    · cases hrun <;>
        simp_all [Call.isParseFailure, Call.isApply]
    · intro herr
      cases hrun <;>
        simp_all [Call.isParseSuccess, Call.isApplySuccess]

/-- C8, witness: a string with a NUL, and a string the OS rejects. -/
theorem setSecurityDescriptor_early_failures_witness :
    SetSecurityDescriptor sampleOS sampleAttributes [68, 0, 58] () =
      some (some (.convertFailed [68, 0, 58]), (), []) ∧
    SetSecurityDescriptor rejectingOS sampleAttributes [68, 58] () =
      some (some (.parseFailed 1336), (),
        [.convertStringSecurityDescriptorToSecurityDescriptorW [68, 58, 0] 1 0 0]) :=
  ⟨(setSecurityDescriptor_early_failures sampleOS sampleAttributes [68, 0, 58] ()).1
      (by decide),
    (setSecurityDescriptor_early_failures rejectingOS sampleAttributes [68, 58] ()).2.1
      (by decide) rfl⟩

/-! ## The invariant of constructor-built values -/

/-- C9. `NewWidowsFileAttributes` fails exactly when it does not run on Windows
or the path contains a NUL. A value it returns has a file name that is not
empty, ends with a 0 code unit and holds no other 0 code unit. So on such a
value the expression `&windowsFileName[0]` does not panic, `securityInfo`
returns and its result is never "file name is not set", and neither is the
result of `GetSecurityDescriptor` or `SetSecurityDescriptor`. -/
theorem constructor_built_file_name {W : Type} (os : Win32 W) (w : W) (s : GoString)
    (goos : String) (filePath : GoString) :
    ((∃ err, NewWidowsFileAttributes goos filePath = .error err) ↔
      (goos ≠ "windows" ∨ 0 ∈ filePath)) ∧
    (∀ attributes, NewWidowsFileAttributes goos filePath = .ok attributes →
      attributes.windowsFileName ≠ [] ∧
      (∃ body, attributes.windowsFileName = body ++ [0] ∧ 0 ∉ body) ∧
      firstElement attributes.windowsFileName = some attributes.windowsFileName ∧
      (∃ r, securityInfo os attributes w = some r ∧ r.1 ≠ .error .fileNameNotSet) ∧
      (∃ r, GetSecurityDescriptor os attributes w = some r ∧ r.1 ≠ .error .fileNameNotSet) ∧
      (∃ r, SetSecurityDescriptor os attributes s w = some r ∧ r.1 ≠ some .fileNameNotSet)) := by
  constructor
  · unfold NewWidowsFileAttributes UTF16FromString
    by_cases hg : goos = "windows" <;> by_cases hp : 0 ∈ filePath <;> simp [hg, hp]
  · intro attributes h
    have hbody : attributes.windowsFileName = utf16Encode filePath ++ [0] ∧
        0 ∉ utf16Encode filePath := by
      unfold NewWidowsFileAttributes at h
      by_cases hg : goos = "windows"
      · by_cases hp : 0 ∈ filePath
        · simp [hg, UTF16FromString, hp] at h
        · simp only [hg, ne_eq, not_true_eq_false, if_false, UTF16FromString_eq _ hp,
            Except.ok.injEq] at h
          subst h
          exact ⟨rfl, zero_not_mem_utf16Encode _ hp⟩
      · simp [hg] at h
    have hne : attributes.windowsFileName ≠ [] := by
      rw [hbody.1]; simp
    refine ⟨hne, ⟨_, hbody.1, hbody.2⟩, ?_, ?_, ?_, ?_⟩
    · rw [hbody.1]; exact firstElement_append _ _
    · obtain ⟨name⟩ := attributes
      cases name with
      | nil => exact absurd rfl hne
      | cons x xs =>
        simp only [securityInfo, firstElement_cons, List.length_cons, Nat.add_one_ne_zero,
          if_false]
        split <;> exact ⟨_, rfl, by simp⟩
    · obtain ⟨result, w1, calls, hget, hrun⟩ := GetSecurityDescriptor_run os attributes w
      refine ⟨_, hget, ?_⟩
      cases hrun <;> simp_all
    · obtain ⟨err, w1, calls, hset, hrun⟩ := SetSecurityDescriptor_run os attributes s w
      refine ⟨_, hset, ?_⟩
      cases hrun <;> simp_all

/-- C9, witness: the constructor on the file name of the tests. -/
theorem constructor_built_file_name_witness :
    NewWidowsFileAttributes "windows" fileName = .ok sampleAttributes ∧
    sampleAttributes.windowsFileName ≠ [] ∧
    (∃ body, sampleAttributes.windowsFileName = body ++ [0] ∧ 0 ∉ body) :=
  ⟨rfl,
    ((constructor_built_file_name sampleOS () [68, 58] "windows" fileName).2
      sampleAttributes rfl).1,
    ((constructor_built_file_name sampleOS () [68, 58] "windows" fileName).2
      sampleAttributes rfl).2.1⟩

/-! ## `unicodeStringToString` undoes `UTF16FromString` -/

/-- C10. `unicodeStringToString` returns "" for the nil pointer. For a non-nil
pointer to memory that holds a 0 code unit it returns, and its result is the
UTF-16 decoding of exactly the code units before the first 0. Hence for
every valid UTF-8 string `s` without NUL, `UTF16FromString` succeeds and
`unicodeStringToString` on its result, whatever follows the terminator in
memory, gives `s` back. -/
theorem unicodeStringToString_roundtrip (addr : Nat) (memory : List Nat) (s : GoString)
    (rest : List Nat) :
    unicodeStringToString 0 memory = some [] ∧
    (addr ≠ 0 → 0 ∈ memory →
      unicodeStringToString addr memory =
        some (stringOfRunes (utf16Decode (memory.takeWhile (fun c => c != 0))))) ∧
    (addr ≠ 0 → (∀ r ∈ s, validRune r = true) → 0 ∉ s →
      ∃ units, UTF16FromString s = some units ∧
        unicodeStringToString addr (units ++ rest) = some s) := by
  refine ⟨by simp [unicodeStringToString], ?_, ?_⟩
  · intro haddr hmem
    simp [unicodeStringToString, haddr, loop_eq _ _ hmem]
  · intro haddr hvalid hs
    refine ⟨_, UTF16FromString_eq s hs, ?_⟩
    have hmem : 0 ∈ utf16Encode s ++ 0 :: rest := by simp
    have hshape : utf16Encode s ++ [0] ++ rest = utf16Encode s ++ 0 :: rest := by simp
    rw [hshape]
    simp only [unicodeStringToString, ne_eq, haddr, not_false_eq_true, if_true]
    rw [loop_eq _ _ hmem, List.nil_append,
      takeWhile_append_zero _ _ (zero_not_mem_utf16Encode s hs),
      utf16Decode_utf16Encode s hvalid, stringOfRunes_valid s hvalid]

/-- C10, witness: "O:" followed by U+1F600, with two code units of other data
behind the terminator. -/
theorem unicodeStringToString_roundtrip_witness :
    unicodeStringToString 0x2000 [79, 58, 0, 7] = some [79, 58] ∧
    ∃ units, UTF16FromString [79, 58, 0x1F600] = some units ∧
      unicodeStringToString 0x2000 (units ++ [7, 0]) = some [79, 58, 0x1F600] :=
  ⟨(unicodeStringToString_roundtrip 0x2000 [79, 58, 0, 7] [79, 58, 0x1F600] [7, 0]).2.1
      (by decide) (by decide),
    (unicodeStringToString_roundtrip 0x2000 [79, 58, 0, 7] [79, 58, 0x1F600] [7, 0]).2.2
      (by decide) (by decide) (by decide)⟩

end FileAttributes
